import Mathlib

/-!
# Verification of the PromptQueue engine of `src/features/enhance-prompt.js`

Shallow embedding of the queue state machine (the first, peek-based
`PromptQueue` object in the file, the one the specification's line
references point at): the queue store, the `_setState` transition
helper, the public operations (`enqueue`, `clearQueue`,
`retryLastError`, `_removeQueueItem`) and the send cycle
(`_dequeueAndSend` / `_sendPromptDom.waitForSendButton` /
`_setupCompletionDetection`).

DOM interaction is abstracted as an environment: each polling attempt
`n` observes a `DomObs` record telling whether the textarea exists,
whether a send button is found, whether it is disabled, and whether
clicking it throws.  Timers and observers of the completion detector
are modelled as events acting on an explicit `DetectorState`; the
promise returned by `_sendPromptDom` is an `Option Settled`.
Notifications emitted through the `Emitter` are accumulated in an
`events` log on the machine state.
-/

/-- The `State` enumeration (`const State = { IDLE, RUNNING, ERRORED }`). -/
inductive MState where
  | idle
  | running
  | errored
deriving DecidableEq, Repr

/-- The `_lastError` record: `{ error: err, prompt }` as set in the catch
branch of `_dequeueAndSend`.  The JS `Error` object is represented by its
message string. -/
structure LastError where
  error : String
  prompt : String
deriving DecidableEq, Repr

/-- A notification emitted through `this._emitter.emit(...)`: either
`queueChanged` with the full ordered list of item texts (`this._queue.slice()`)
or `stateChanged` with the new state. -/
inductive QEvent where
  | queueChanged (items : List String)
  | stateChanged (s : MState)
deriving DecidableEq, Repr

/-- The mutable fields of the `PromptQueue` singleton that the claims are
about: `_state`, `_queue`, `_currentPrompt`, `_lastError`, plus the log of
emitted notifications and a flag recording that a `setTimeout` invoking
`_dequeueAndSend` is pending (set by `_startProcessingWithDelay`, by the
index-0-while-running branch of `_removeQueueItem` and by the success branch
of `_dequeueAndSend`). -/
structure QueueState where
  state : MState
  queue : List String
  currentPrompt : Option String
  lastError : Option LastError
  events : List QEvent
  scheduled : Bool
deriving DecidableEq, Repr

/-- The freshly initialised machine: `_state = State.IDLE`, `_queue = []`,
`_currentPrompt = null`, `_lastError = null`. -/
def initQueue : QueueState :=
  { state := MState.idle, queue := [], currentPrompt := none,
    lastError := none, events := [], scheduled := false }

/-- `_setState(next, meta)`: early-returns when the state is unchanged;
otherwise stores the new state, nulls `_lastError` whenever
`next !== State.ERRORED`, and emits `stateChanged` (the `_renderQueue` /
`_updateQueueIndicator` calls are pure DOM painting and are not modelled). -/
def setState (st : QueueState) (next : MState) : QueueState :=
  if st.state = next then st
  else
    { st with
      state := next,
      lastError := if next ≠ MState.errored then none else st.lastError,
      events := st.events ++ [QEvent.stateChanged next] }

/-- JavaScript `String.prototype.trim`: strip leading and trailing
whitespace.  Written over the character list so that it reduces inside the
kernel (Lean's own `String.trim` goes through `Substring` functions defined
by well-founded recursion, which concrete evaluation cannot unfold). -/
def jsTrim (s : String) : String :=
  ⟨(((s.data.dropWhile Char.isWhitespace).reverse.dropWhile
      Char.isWhitespace).reverse)⟩

/-- `enqueue(text)`: trims the text (`(text || '').trim()`), warns and returns
on an empty result; otherwise pushes the trimmed text, emits `queueChanged`
with the full list, and — when this made the queue length 1 while the state is
IDLE — schedules `_startProcessingWithDelay`.  The UI-not-ready branch defers
the same render/emit/schedule sequence into the `_ensureUI` callback and is
modelled identically; `_closeInterferingElements` is DOM-only. -/
def enqueue (st : QueueState) (text : Option String) : QueueState :=
  let trimmed := jsTrim (text.getD "")
  if trimmed = "" then st
  else
    let q := st.queue ++ [trimmed]
    { st with
      queue := q,
      events := st.events ++ [QEvent.queueChanged q],
      scheduled :=
        st.scheduled || (q.length = 1 && st.state = MState.idle) }

/-- `clearQueue()`: empties `_queue` and emits `queueChanged([])`.  It touches
neither `_state` nor `_lastError` nor `_currentPrompt`. -/
def clearQueue (st : QueueState) : QueueState :=
  { st with queue := [], events := st.events ++ [QEvent.queueChanged []] }

/-- `_removeQueueItem(index)`: returns on an out-of-range index; otherwise
splices the item out and emits `queueChanged`; then, only when `index === 0`
and `_state === State.RUNNING`, nulls `_currentPrompt`, sets the state to
IDLE and — if items remain — schedules `_dequeueAndSend` after 500 ms. -/
def removeQueueItem (st : QueueState) (index : Nat) : QueueState :=
  if index ≥ st.queue.length then st
  else
    let q := st.queue.eraseIdx index
    let st1 := { st with queue := q, events := st.events ++ [QEvent.queueChanged q] }
    if index = 0 ∧ st.state = MState.running then
      let st2 := setState { st1 with currentPrompt := none } MState.idle
      { st2 with scheduled := st2.scheduled || q.length ≠ 0 }
    else st1

/-! ## The DOM environment and the bounded poll of `_sendPromptDom` -/

/-- What one polling attempt of `waitForSendButton` observes in the live DOM:
whether `document.querySelector(SELECTORS.textArea)` finds the textarea,
whether `_findSendButton()` returns a button, whether that button counts as
disabled (`disabled || classList.contains('disabled') ||
classList.contains('opacity-50') || style.opacity === '0.5'`), and whether
invoking `sendBtn.click()` throws synchronously. -/
structure DomObs where
  textAreaPresent : Bool
  sendBtnPresent : Bool
  sendBtnDisabled : Bool
  clickThrows : Bool
deriving DecidableEq, Repr

/-- A DOM environment: the observation made by polling attempt number `n`. -/
def DomEnv : Type := Nat → DomObs

/-- Outcome of the synchronous part of `_sendPromptDom`. -/
inductive SendResult where
  /-- the send button was found enabled, `_setupCompletionDetection` was
  installed and `sendBtn.click()` returned normally; the promise is still
  pending, to be settled by the detector. -/
  | clicked
  /-- one of the three `reject(new Error(...))` calls after the bounded poll
  exhausted its `maxAttempts`; no detector was installed. -/
  | rejectedPoll (msg : String)
  /-- the detector was installed but `sendBtn.click()` threw, reaching
  `catch (e) { reject(e); }`; note that this path runs no cleanup. -/
  | rejectedClick
deriving DecidableEq, Repr

/-- `const maxAttempts = 30; // 30 attempts * 500ms = 15 seconds max wait` -/
def maxAttempts : Nat := 30

/-- The recursion of `waitForSendButton(attempts)`, re-indexed by the number
`remaining = maxAttempts - attempts` of retries still allowed, so that the
guard `attempts < maxAttempts` becomes `remaining ≠ 0`.  Missing textarea,
missing button and disabled button each retry after 500 ms while attempts
are left and otherwise reject with the corresponding error message; a found,
enabled button leads to installing completion detection and clicking (the
value-setting and input/change dispatch on the textarea are host-DOM writes
with no effect on the machine state). -/
def waitLoop (env : DomEnv) : Nat → Nat → SendResult
  | attempts, remaining =>
    let obs := env attempts
    if obs.textAreaPresent = false then
      match remaining with
      | Nat.succ r => waitLoop env (attempts + 1) r
      | 0 => SendResult.rejectedPoll "Textarea not found after waiting"
    else if obs.sendBtnPresent = false then
      match remaining with
      | Nat.succ r => waitLoop env (attempts + 1) r
      | 0 => SendResult.rejectedPoll "Send button not found after waiting"
    else if obs.sendBtnDisabled then
      match remaining with
      | Nat.succ r => waitLoop env (attempts + 1) r
      | 0 => SendResult.rejectedPoll "Send button remained disabled after waiting"
    else if obs.clickThrows then SendResult.rejectedClick
    else SendResult.clicked

/-- `_sendPromptDom` starts the poll at `waitForSendButton()` i.e.
`attempts = 0`, with `maxAttempts` retries available. -/
def waitForSendButton (env : DomEnv) : SendResult :=
  waitLoop env 0 maxAttempts

/-- An observation on which `waitForSendButton` cannot click: no textarea, or
no send button, or a disabled send button. -/
def NotReady (obs : DomObs) : Prop :=
  obs.textAreaPresent = false ∨ obs.sendBtnPresent = false ∨ obs.sendBtnDisabled = true

/-- The error message paired with the prompt in `_lastError` when the send
attempt fails: the message of the rejecting `Error` (or of the thrown click
exception, whose text the host controls; `"click threw"` stands for it). -/
def rejectionMsg : SendResult → Option String
  | SendResult.rejectedPoll m => some m
  | SendResult.rejectedClick => some "click threw"
  | SendResult.clicked => none

/-! ## The send cycle `_dequeueAndSend` -/

/-- The synchronous head of `_dequeueAndSend` up to the `await`: guard
(`state !== IDLE` or empty queue means no-op), peek `_queue[0]` without
removing it, set `_currentPrompt`, set state RUNNING.  Returns `none` when a
guard fired, otherwise the updated state and the captured `prompt`. -/
def startSend (st : QueueState) : Option (QueueState × String) :=
  if st.state ≠ MState.idle then none
  else
    match st.queue with
    | [] => none
    | p :: _ =>
      some (setState { st with currentPrompt := some p } MState.running, p)

/-- The continuation after `await this._sendPromptDom(prompt)` resolves:
`this._queue.shift(); this._currentPrompt = null; this._setState(State.IDLE)`
followed by scheduling another `_dequeueAndSend` after 200 ms when items
remain (the empty-queue `else` repeats `_setState(State.IDLE)`, a no-op).
It reads `this._queue` at resolution time, not the queue captured at the
start of the send — nothing ties it to the item the send was started for. -/
def onSendResolved (st : QueueState) : QueueState :=
  let st1 := { st with queue := st.queue.tail, currentPrompt := none }
  let st2 := setState st1 MState.idle
  { st2 with scheduled := st2.scheduled || st2.queue.length ≠ 0 }

/-- The catch branch of `_dequeueAndSend`: record
`_lastError = { error: err, prompt }` with the prompt captured at the start,
null `_currentPrompt`, set state ERRORED; the failed item is not removed. -/
def onSendRejected (st : QueueState) (msg prompt : String) : QueueState :=
  setState { st with lastError := some ⟨msg, prompt⟩, currentPrompt := none }
    MState.errored

/-- One full `_dequeueAndSend` cycle against environment `env`, collapsing
the in-flight wait: a `clicked` outcome resolves (every detector path
resolves — proved below about `detStep` — with the 45 s ceiling as the
unconditional bound), a rejected outcome rejects. -/
def dequeueAndSend (env : DomEnv) (st : QueueState) : QueueState :=
  match startSend st with
  | none => st
  | some (st1, prompt) =>
    match waitForSendButton env with
    | SendResult.clicked => onSendResolved st1
    | SendResult.rejectedPoll m => onSendRejected st1 m prompt
    | SendResult.rejectedClick => onSendRejected st1 "click threw" prompt

/-- `retryLastError()`: with a captured `_lastError` whose `prompt` is a
string, unshift that prompt onto the front of the queue (the code comment
reads `Push failed prompt to front (priority retry)`), null the error, set
state IDLE and call `_dequeueAndSend`; otherwise just null the error, set
state IDLE and call `_dequeueAndSend` when the queue is non-empty.  No
`queueChanged` is emitted for the unshift. -/
def retryLastError (env : DomEnv) (st : QueueState) : QueueState :=
  match st.lastError with
  | some le =>
    let st1 := { st with queue := le.prompt :: st.queue, lastError := none }
    dequeueAndSend env (setState st1 MState.idle)
  | none =>
    let st1 := setState { st with lastError := none } MState.idle
    if st1.queue.length > 0 then dequeueAndSend env st1 else st1

/-! ## The completion detector `_setupCompletionDetection` -/

/-- How the promise of `_sendPromptDom` settles. -/
inductive Settled where
  | resolved
  | rejected
deriving DecidableEq, Repr

/-- The closure state of one `_setupCompletionDetection` installation:
`isCompleted`, `sendBtnWasDisabled` (strategy 1), `hasSeenChanges`
(strategy 2), and one liveness flag per resource it creates — the 45 s
absolute timeout (`timeoutId`), the 10/15 s primary timer (`simpleTimeout`),
the 30 s fallback timer (`fallbackTimeout`), the 500 ms periodic
`checkInterval`, the `MutationObserver`, the untracked
`setTimeout(checkSendButton, 1000)` initial check, and the untracked
`setTimeout(complete, 500/1000)` settle delays. -/
structure DetectorState where
  isCompleted : Bool
  sendBtnWasDisabled : Bool
  hasSeenChanges : Bool
  ceilingActive : Bool
  simpleActive : Bool
  fallbackActive : Bool
  intervalActive : Bool
  observerActive : Bool
  initialCheckActive : Bool
  completeDelayPending : Bool
deriving DecidableEq, Repr

/-- The state right after `_setupCompletionDetection(resolve, reject)` runs:
all flags false, every created timer/interval/observer armed, the 1 s initial
`checkSendButton` timeout pending, no settle delay scheduled yet. -/
def initialDetector : DetectorState :=
  { isCompleted := false, sendBtnWasDisabled := false, hasSeenChanges := false,
    ceilingActive := true, simpleActive := true, fallbackActive := true,
    intervalActive := true, observerActive := true, initialCheckActive := true,
    completeDelayPending := false }

/-- `cleanup()`: `clearTimeout(timeoutId); clearTimeout(simpleTimeout);
clearTimeout(fallbackTimeout); clearInterval(checkInterval);
mutationObserver.disconnect()`.  The 1 s initial-check timeout and any
pending `setTimeout(complete, ...)` settle delays have no recorded ids and
are not cancelled. -/
def cleanup (d : DetectorState) : DetectorState :=
  { d with
    ceilingActive := false, simpleActive := false,
    fallbackActive := false, intervalActive := false, observerActive := false }

/-- `complete()`: when not yet completed, mark completed, run `cleanup()` and
`resolve()`.  (`fail(error)` is defined symmetrically in the source with
`reject(error)` but is never invoked anywhere.) -/
def completeFn (d : DetectorState) : DetectorState × Option Settled :=
  if d.isCompleted then (d, none)
  else (cleanup { d with isCompleted := true }, some Settled.resolved)

/-- `checkSendButton()` over the button reference captured at install time:
nothing without a button; a disabled button records `sendBtnWasDisabled`; an
enabled button after a recorded disabled phase schedules
`setTimeout(complete, 500)`. -/
def checkSendButton (btnPresent btnDisabled : Bool) (d : DetectorState) :
    DetectorState :=
  if btnPresent = false then d
  else if btnDisabled then { d with sendBtnWasDisabled := true }
  else if d.sendBtnWasDisabled then { d with completeDelayPending := true }
  else d

/-- The timer, interval and observer callbacks of the detector, each
parametrised by what the DOM shows at the moment it fires. -/
inductive DetEvent where
  /-- the 45 s absolute timeout fires. -/
  | ceilingFires
  /-- the 10 s (last item) / 15 s primary timer fires. -/
  | simpleFires
  /-- the 30 s fallback timer fires. -/
  | fallbackFires
  /-- one 500 ms tick of `checkInterval`; it re-finds the send button. -/
  | intervalTick (btnFound btnDisabled : Bool)
  /-- one `MutationObserver` callback; `growthExceeded` says whether the
  element count under the chat container grew past the +5 threshold,
  the button flags describe the captured `sendBtn` reference. -/
  | mutation (growthExceeded btnPresent btnDisabled : Bool)
  /-- the 1 s `setTimeout(checkSendButton, 1000)` initial check fires. -/
  | initialCheckFires (btnPresent btnDisabled : Bool)
  /-- a pending `setTimeout(complete, 500/1000)` settle delay fires. -/
  | completeDelayFires
deriving DecidableEq, Repr

/-- One detector callback firing: the new closure state and the settlement it
produces, if any.  Faithful to the source branch for branch; a timer that
fires is no longer pending whatever else happens. -/
def detStep (e : DetEvent) (d : DetectorState) : DetectorState × Option Settled :=
  match e with
  | DetEvent.ceilingFires =>
    let d0 := { d with ceilingActive := false }
    if d0.isCompleted = false then
      (cleanup { d0 with isCompleted := true }, some Settled.resolved)
    else (d0, none)
  | DetEvent.simpleFires =>
    let d0 := { d with simpleActive := false }
    if d0.isCompleted = false then completeFn d0 else (d0, none)
  | DetEvent.fallbackFires =>
    let d0 := { d with fallbackActive := false }
    if d0.isCompleted = false ∧ d0.hasSeenChanges then completeFn d0
    else (d0, none)
  | DetEvent.intervalTick btnFound btnDisabled =>
    if d.isCompleted then ({ d with intervalActive := false }, none)
    else if btnFound ∧ btnDisabled = false ∧ d.sendBtnWasDisabled then
      ({ d with intervalActive := false, completeDelayPending := true }, none)
    else (d, none)
  | DetEvent.mutation growthExceeded btnPresent btnDisabled =>
    if d.isCompleted then (d, none)
    else
      let d1 := if growthExceeded then { d with hasSeenChanges := true } else d
      let d2 := checkSendButton btnPresent btnDisabled d1
      if d2.hasSeenChanges ∧ btnPresent ∧ btnDisabled = false then
        ({ d2 with completeDelayPending := true }, none)
      else (d2, none)
  | DetEvent.initialCheckFires btnPresent btnDisabled =>
    (checkSendButton btnPresent btnDisabled { d with initialCheckActive := false },
     none)
  | DetEvent.completeDelayFires =>
    completeFn { d with completeDelayPending := false }

/-- Whether any resource created by the detector is still live. -/
def anyResourceActive (d : DetectorState) : Bool :=
  d.ceilingActive || d.simpleActive || d.fallbackActive || d.intervalActive ||
    d.observerActive || d.initialCheckActive || d.completeDelayPending

/-- The detector-level view of the synchronous part of `_sendPromptDom`:
which detector installation exists afterwards (none when the poll rejected
before reaching the click) and the settlement produced synchronously
(`reject` on poll exhaustion, `reject` on a thrown click — run without any
cleanup — and none on a successful click, the promise then being settled by
`detStep` events). -/
def sendPromptDomSync (env : DomEnv) : Option DetectorState × Option Settled :=
  match waitForSendButton env with
  | SendResult.rejectedPoll _ => (none, some Settled.rejected)
  | SendResult.rejectedClick => (some initialDetector, some Settled.rejected)
  | SendResult.clicked => (some initialDetector, none)

/-! ## Observation helpers and sample states -/

/-- Whether a notification is a `queueChanged` one. -/
def isQueueChangedEvent : QEvent → Bool
  | QEvent.queueChanged _ => true
  | QEvent.stateChanged _ => false

/-- The invariant of the claims: RUNNING and ERRORED each force a non-empty
queue with the acted-upon item at index 0 (`_currentPrompt` while running,
`_lastError.prompt` while errored). -/
def QueueInv (st : QueueState) : Prop :=
  (st.state = MState.running →
    st.queue ≠ [] ∧ st.currentPrompt = st.queue.head?) ∧
  (st.state = MState.errored →
    st.queue ≠ [] ∧ Option.map LastError.prompt st.lastError = st.queue.head?)

instance (st : QueueState) : Decidable (QueueInv st) := by
  unfold QueueInv; infer_instance

/-- An ERRORED machine: one failed item `"x"` at index 0 with its captured
error, as produced by a send attempt whose poll never found the button. -/
def erroredSample : QueueState :=
  { state := MState.errored, queue := ["x"], currentPrompt := none,
    lastError := some ⟨"Send button not found after waiting", "x"⟩,
    events := [], scheduled := false }

/-- An ERRORED machine with a second item `"y"` queued behind the failed
`"x"`. -/
def erroredTwoSample : QueueState :=
  { state := MState.errored, queue := ["x", "y"], currentPrompt := none,
    lastError := some ⟨"Send button not found after waiting", "x"⟩,
    events := [], scheduled := false }

/-- An IDLE machine with the single item `"x"` queued. -/
def idleXSample : QueueState :=
  { state := MState.idle, queue := ["x"], currentPrompt := none,
    lastError := none, events := [], scheduled := false }

/-- An environment in which the page never renders a textarea or a send
button. -/
def absentEnv : DomEnv := fun _ =>
  { textAreaPresent := false, sendBtnPresent := false,
    sendBtnDisabled := false, clickThrows := false }

/-- An environment in which textarea and button exist but the button stays
disabled forever. -/
def disabledEnv : DomEnv := fun _ =>
  { textAreaPresent := true, sendBtnPresent := true,
    sendBtnDisabled := true, clickThrows := false }

/-- An environment in which the button is immediately ready and the click
succeeds. -/
def readyEnv : DomEnv := fun _ =>
  { textAreaPresent := true, sendBtnPresent := true,
    sendBtnDisabled := false, clickThrows := false }

/-- An environment in which the button is immediately ready but
`sendBtn.click()` throws. -/
def clickThrowEnv : DomEnv := fun _ =>
  { textAreaPresent := true, sendBtnPresent := true,
    sendBtnDisabled := false, clickThrows := true }

/-! ## Shared field-level lemmas -/

/-- Field-level description of an `enqueue` whose trimmed text is
non-empty. -/
theorem enqueue_fields (st : QueueState) (text : Option String)
    (h : jsTrim (text.getD "") ≠ "") :
    enqueue st text
      = { st with
          queue := st.queue ++ [jsTrim (text.getD "")],
          events := st.events
            ++ [QEvent.queueChanged (st.queue ++ [jsTrim (text.getD "")])],
          scheduled := st.scheduled
            || ((st.queue ++ [jsTrim (text.getD "")]).length = 1
                  && st.state = MState.idle) } := by
  simp only [enqueue]
  rw [if_neg h]

/-- `_setState` always lands on the requested state. -/
theorem setState_state (st : QueueState) (next : MState) :
    (setState st next).state = next := by
  by_cases h : st.state = next <;> simp [setState, h]

/-- The resolve continuation of `_dequeueAndSend` always shifts the current
queue head, nulls `_currentPrompt` and lands on IDLE. -/
theorem onSendResolved_fields (st : QueueState) :
    (onSendResolved st).queue = st.queue.tail ∧
    (onSendResolved st).state = MState.idle ∧
    (onSendResolved st).currentPrompt = none := by
  by_cases h : st.state = MState.idle <;>
    simp [onSendResolved, setState, h]

/-! ## C10 — `enqueue` trims, drops empties, appends at the back -/

/-- C10: `enqueue(text)` first trims the text; a null/empty/whitespace-only
text makes the call a no-op (queue, state, `_lastError`, notifications all
unchanged); otherwise exactly the trimmed text is appended at the back, with
a single `queueChanged` notification carrying the full list. -/
theorem C10_enqueue_trims_and_appends (st : QueueState) (text : Option String) :
    (jsTrim (text.getD "") = "" → enqueue st text = st) ∧
    (jsTrim (text.getD "") ≠ "" →
      (enqueue st text).queue = st.queue ++ [jsTrim (text.getD "")] ∧
      (enqueue st text).state = st.state ∧
      (enqueue st text).lastError = st.lastError ∧
      (enqueue st text).currentPrompt = st.currentPrompt ∧
      (enqueue st text).events
        = st.events ++ [QEvent.queueChanged (st.queue ++ [jsTrim (text.getD "")])]) := by
  constructor
  · intro h
    simp [enqueue, h]
  · intro h
    rw [enqueue_fields st text h]
    exact ⟨rfl, rfl, rfl, rfl, rfl⟩

/-- C10 witness: a whitespace-only text is a no-op and `" hi "` is enqueued
as `"hi"`. -/
theorem C10_enqueue_trims_and_appends_witness :
    enqueue idleXSample (some "   ") = idleXSample ∧
    (enqueue idleXSample (some " hi ")).queue = ["x", "hi"] := by
  refine ⟨(C10_enqueue_trims_and_appends idleXSample (some "   ")).1 (by decide), ?_⟩
  have h := ((C10_enqueue_trims_and_appends idleXSample (some " hi ")).2
    (by decide)).1
  rw [h]
  decide

/-! ## C7 — `clearQueue` idempotence and what it does (and does not) reset -/

/-- C7 counterexample: called in the ERRORED state, `clearQueue` leaves the
state ERRORED and the `_lastError` record in place — its result is not
"state Idle and no recorded error". -/
theorem C7_clearQueue_no_state_reset :
    (clearQueue erroredSample).queue = [] ∧
    (clearQueue erroredSample).state = MState.errored ∧
    (clearQueue erroredSample).state ≠ MState.idle ∧
    (clearQueue erroredSample).lastError ≠ none := by decide

/-- C7 amended: `clearQueue` is idempotent on the store (queue, state,
`_lastError`, `_currentPrompt` agree after one and after two calls — the
second call only emits one more `queueChanged([])` notification), and its
result from any state is an empty queue with the state and the recorded
error left exactly as they were. -/
theorem C7_clearQueue_idempotent_amended (st : QueueState) :
    (clearQueue (clearQueue st)).queue = (clearQueue st).queue ∧
    (clearQueue (clearQueue st)).state = (clearQueue st).state ∧
    (clearQueue (clearQueue st)).lastError = (clearQueue st).lastError ∧
    (clearQueue (clearQueue st)).currentPrompt = (clearQueue st).currentPrompt ∧
    (clearQueue st).queue = [] ∧
    (clearQueue st).state = st.state ∧
    (clearQueue st).lastError = st.lastError ∧
    (clearQueue st).currentPrompt = st.currentPrompt := by
  simp [clearQueue]

/-! ## C6 — removing the failed item at index 0 while ERRORED -/

/-- C6 counterexample: with the machine ERRORED on `"x"` and `"y"` queued
behind it, `_removeQueueItem(0)` deletes `"x"` but clears no error, stays
ERRORED instead of exiting to Idle, and schedules no resumption for `"y"`:
the `index === 0` recovery branch tests `_state === State.RUNNING` only. -/
theorem C6_removeAt_errored_no_recovery :
    (removeQueueItem erroredTwoSample 0).queue = ["y"] ∧
    (removeQueueItem erroredTwoSample 0).state = MState.errored ∧
    (removeQueueItem erroredTwoSample 0).lastError
      = some ⟨"Send button not found after waiting", "x"⟩ ∧
    (removeQueueItem erroredTwoSample 0).scheduled = false := by decide

/-- C6 amended: removing index 0 while ERRORED removes the item and emits
`queueChanged`, but leaves the state ERRORED, the `_lastError` record, the
`_currentPrompt` and the scheduling flag untouched; the clear-and-resume
recovery of `_removeQueueItem` exists only for the RUNNING state. -/
theorem C6_removeAt_errored_amended (st : QueueState)
    (h : st.state = MState.errored) (x : String) (rest : List String)
    (hq : st.queue = x :: rest) :
    (removeQueueItem st 0).queue = rest ∧
    (removeQueueItem st 0).state = MState.errored ∧
    (removeQueueItem st 0).lastError = st.lastError ∧
    (removeQueueItem st 0).currentPrompt = st.currentPrompt ∧
    (removeQueueItem st 0).scheduled = st.scheduled ∧
    (removeQueueItem st 0).events
      = st.events ++ [QEvent.queueChanged rest] := by
  simp [removeQueueItem, hq, h]

/-- C6 amended, witness at the two-item ERRORED sample. -/
theorem C6_removeAt_errored_amended_witness :
    (removeQueueItem erroredTwoSample 0).queue = ["y"] ∧
    (removeQueueItem erroredTwoSample 0).state = MState.errored :=
  ⟨(C6_removeAt_errored_amended erroredTwoSample rfl "x" ["y"] rfl).1,
   (C6_removeAt_errored_amended erroredTwoSample rfl "x" ["y"] rfl).2.1⟩

/-! ## C5 — what the abandoned send's resolution does after `removeAt(0)` -/

/-- An IDLE machine with `["a", "b"]` queued. -/
def idleABSample : QueueState :=
  { state := MState.idle, queue := ["a", "b"], currentPrompt := none,
    lastError := none, events := [], scheduled := false }

/-- The machine after `_dequeueAndSend` has started on `"a"` (peeked, marked
RUNNING) and is awaiting `_sendPromptDom("a")`. -/
def runningOnA : QueueState := ((startSend idleABSample).getD (idleABSample, "")).1

/-- The machine after the user calls `removeAt(0)` on the in-flight `"a"`:
the RUNNING branch of `_removeQueueItem` resets to IDLE and schedules a
resume. -/
def afterAbandonA : QueueState := removeQueueItem runningOnA 0

/-- The machine after the scheduled resume has started the send of `"b"`;
the detector of the abandoned `"a"` submission is still pending. -/
def runningOnB : QueueState := ((startSend afterAbandonA).getD (afterAbandonA, "")).1

/-- The machine after the abandoned `"a"` detector finally resolves and the
suspended `await` continuation of the first `_dequeueAndSend` call runs. -/
def afterStaleResolve : QueueState := onSendResolved runningOnB

/-- C5 counterexample: the abandoned detector's resolution is treated as
fully meaningful.  With `["a", "b"]` queued and `"a"` abandoned via
`removeAt(0)` while RUNNING, once the resume is running on `"b"` the stale
continuation pops `"b"` — the wrong, in-flight item — and flips the state
from RUNNING to IDLE: there is no liveness guard of any kind in
`_dequeueAndSend`. -/
theorem C5_stale_resolution_pops_item :
    runningOnA.state = MState.running ∧ runningOnA.queue = ["a", "b"] ∧
    afterAbandonA.state = MState.idle ∧ afterAbandonA.queue = ["b"] ∧
    afterAbandonA.scheduled = true ∧
    runningOnB.state = MState.running ∧ runningOnB.queue = ["b"] ∧
    runningOnB.currentPrompt = some "b" ∧
    afterStaleResolve.queue = [] ∧
    afterStaleResolve.state = MState.idle ∧
    afterStaleResolve.currentPrompt = none := by decide

/-- C5 amended: the resolve continuation of `_dequeueAndSend` is not guarded
by any liveness check: whatever happened since the send started, it shifts
the then-current queue head, nulls `_currentPrompt` and forces the state to
IDLE — so an abandoned detector's settlement does pop a queue item and does
change the state whenever the machine is not already IDLE with an empty
queue. -/
theorem C5_resolve_continuation_unguarded (st : QueueState) :
    (onSendResolved st).queue = st.queue.tail ∧
    (onSendResolved st).state = MState.idle ∧
    (onSendResolved st).currentPrompt = none :=
  onSendResolved_fields st

/-! ## C4 — what `retryLastError` does to the queue -/

/-- C4: the failed item was never removed — `_dequeueAndSend` keeps it at
index 0 on failure — yet `retryLastError` additionally unshifts
`_lastError.prompt` onto the front.  From the ERRORED state with queue
`["x"]` and captured prompt `"x"`, a retry (here against a DOM whose button
stays disabled, so the re-send fails too and nothing is popped) leaves the
queue as `["x", "x"]`: the prompt got duplicated rather than left alone. -/
theorem C4_retry_duplicates_failed_prompt :
    erroredSample.queue = ["x"] ∧
    (retryLastError disabledEnv erroredSample).queue = ["x", "x"] ∧
    (retryLastError disabledEnv erroredSample).state = MState.errored ∧
    Option.map LastError.prompt
      (retryLastError disabledEnv erroredSample).lastError = some "x" := by
  decide

/-! ## C2 — the bounded poll settles every send attempt -/

/-- One not-ready poll attempt with retries left just recurses on the next
attempt, whichever of the three conditions (no textarea, no button, disabled
button) held. -/
theorem waitLoop_notReady_step (env : DomEnv) (a r : Nat)
    (h : NotReady (env a)) :
    waitLoop env a (r + 1) = waitLoop env (a + 1) r := by
  rw [waitLoop]
  rcases h with h | h | h <;>
    by_cases h1 : (env a).textAreaPresent = false <;>
    by_cases h2 : (env a).sendBtnPresent = false <;>
    simp_all

/-- A not-ready poll attempt with no retries left rejects with one of the
three waiting-exhausted error messages. -/
theorem waitLoop_notReady_zero (env : DomEnv) (a : Nat)
    (h : NotReady (env a)) :
    ∃ m, waitLoop env a 0 = SendResult.rejectedPoll m := by
  rw [waitLoop]
  rcases h with h | h | h <;>
    by_cases h1 : (env a).textAreaPresent = false <;>
    by_cases h2 : (env a).sendBtnPresent = false <;>
    simp_all

/-- Against a DOM that is never ready, the poll terminates with a rejection
after exhausting its attempts, from any starting point. -/
theorem waitLoop_notReady_rejects (env : DomEnv) (hnr : ∀ n, NotReady (env n)) :
    ∀ remaining attempts,
      ∃ m, waitLoop env attempts remaining = SendResult.rejectedPoll m := by
  intro remaining
  induction remaining with
  | zero => exact fun a => waitLoop_notReady_zero env a (hnr a)
  | succ r ih =>
    intro a
    rw [waitLoop_notReady_step env a r (hnr a)]
    exact ih (a + 1)

/-- C2: when no textarea, no submit control, or no enabled submit control is
ever found, the bounded poll (31 observations: the initial attempt plus
`maxAttempts = 30` retries at 500 ms) terminates by rejecting, and the send
cycle settles: the machine leaves RUNNING for ERRORED, `_lastError.prompt`
is the item's text, and the item is still at index 0 with the rest of the
queue intact — `sendNext` never hangs. -/
theorem C2_sendNext_bounded_poll_errors (env : DomEnv) (st : QueueState)
    (p : String) (rest : List String) (hidle : st.state = MState.idle)
    (hq : st.queue = p :: rest) (hnr : ∀ n, NotReady (env n)) :
    (∃ m, waitForSendButton env = SendResult.rejectedPoll m) ∧
    (dequeueAndSend env st).state = MState.errored ∧
    Option.map LastError.prompt (dequeueAndSend env st).lastError = some p ∧
    (dequeueAndSend env st).queue = p :: rest := by
  obtain ⟨m, hm⟩ := waitLoop_notReady_rejects env hnr maxAttempts 0
  have hwf : waitForSendButton env = SendResult.rejectedPoll m := hm
  refine ⟨⟨m, hwf⟩, ?_⟩
  have hstart : startSend st
      = some (setState { st with currentPrompt := some p } MState.running, p) := by
    simp [startSend, hidle, hq]
  simp only [dequeueAndSend, hstart, hwf]
  simp [onSendRejected, setState, hidle, hq]

/-- C2 witness: with the item `"x"` queued and a page that never renders the
composer, the cycle ends ERRORED on `"x"` with `["x"]` still queued. -/
theorem C2_sendNext_bounded_poll_errors_witness :
    (dequeueAndSend absentEnv idleXSample).state = MState.errored ∧
    Option.map LastError.prompt
      (dequeueAndSend absentEnv idleXSample).lastError = some "x" ∧
    (dequeueAndSend absentEnv idleXSample).queue = ["x"] :=
  (C2_sendNext_bounded_poll_errors absentEnv idleXSample "x" [] rfl rfl
    (fun _ => Or.inl rfl)).2

/-! ## C8 — which mutations and transitions emit notifications -/

/-- C8 counterexample: two queue mutations that emit no `queueChanged`.
The retry reinsertion (`this._queue.unshift(...)` in `retryLastError`)
changes the queue from `["x"]` to `["x", "x"]`, and the pop of index 0 on
successful completion (`this._queue.shift()` in `_dequeueAndSend`) changes
it from `["x"]` to `[]`; in both runs every notification appended during the
call is a `stateChanged`, never a `queueChanged`. -/
theorem C8_mutations_without_queueChanged :
    ((retryLastError disabledEnv erroredSample).queue ≠ erroredSample.queue ∧
      ((retryLastError disabledEnv erroredSample).events.drop
          erroredSample.events.length).all
        (fun ev => !isQueueChangedEvent ev) = true) ∧
    ((dequeueAndSend readyEnv idleXSample).queue ≠ idleXSample.queue ∧
      ((dequeueAndSend readyEnv idleXSample).events.drop
          idleXSample.events.length).all
        (fun ev => !isQueueChangedEvent ev) = true) := by
  decide

/-- C8 amended: `enqueue` (on a non-empty trim), `_removeQueueItem` (on a
valid index) and `clearQueue` each emit one `queueChanged` notification
carrying the full current ordered list, and every effective state transition
emits one `stateChanged` with the new state; but the two remaining queue
mutations — the retry reinsertion and the success pop — emit no
`queueChanged` (they only repaint via `_renderQueue`). -/
theorem C8_notifications_amended (st : QueueState) :
    (∀ text, jsTrim (text.getD "") ≠ "" →
      (enqueue st text).events
        = st.events ++ [QEvent.queueChanged (st.queue ++ [jsTrim (text.getD "")])]) ∧
    ((clearQueue st).events = st.events ++ [QEvent.queueChanged []]) ∧
    (∀ i, i < st.queue.length → ¬(i = 0 ∧ st.state = MState.running) →
      (removeQueueItem st i).events
        = st.events ++ [QEvent.queueChanged (st.queue.eraseIdx i)]) ∧
    (∀ i, i < st.queue.length → i = 0 → st.state = MState.running →
      (removeQueueItem st i).events
        = st.events ++ [QEvent.queueChanged (st.queue.eraseIdx i),
            QEvent.stateChanged MState.idle]) ∧
    (∀ next, st.state ≠ next →
      (setState st next).events = st.events ++ [QEvent.stateChanged next]) := by
  refine ⟨?_, ?_, ?_, ?_, ?_⟩
  · intro text h
    rw [enqueue_fields st text h]
  · simp [clearQueue]
  · intro i hi hcond
    simp [removeQueueItem, Nat.not_le.mpr hi, hcond]
  · intro i hi hzero hrun
    subst hzero
    simp [removeQueueItem, Nat.not_le.mpr hi, hrun, setState]
  · intro next h
    simp [setState, h]

/-- C8 amended, witness: a concrete `clearQueue` emission and the RUNNING
removal emission. -/
theorem C8_notifications_amended_witness :
    (clearQueue runningOnA).events
      = runningOnA.events ++ [QEvent.queueChanged []] ∧
    (removeQueueItem runningOnA 0).events
      = runningOnA.events ++ [QEvent.queueChanged ["b"],
          QEvent.stateChanged MState.idle] :=
  ⟨(C8_notifications_amended runningOnA).2.1,
   (C8_notifications_amended runningOnA).2.2.2.1 0 (by decide) rfl (by decide)⟩

/-! ## C1 — the Running/Errored queue invariant -/

/-- A machine sitting in IDLE satisfies the invariant vacuously. -/
theorem queueInv_of_idle (st : QueueState) (h : st.state = MState.idle) :
    QueueInv st := by
  refine ⟨fun hc => ?_, fun hc => ?_⟩ <;> rw [h] at hc <;> cases hc

/-- Appending at the back of a non-empty list keeps the head. -/
theorem head_append_singleton (l : List String) (x : String) (h : l ≠ []) :
    (l ++ [x]).head? = l.head? := by
  cases l with
  | nil => exact absurd rfl h
  | cons a as => rfl

/-- Erasing a positive in-range index keeps the head and leaves the list
non-empty. -/
theorem eraseIdx_pos_head (l : List String) (i : Nat) (hi : i ≠ 0)
    (hlen : i < l.length) :
    (l.eraseIdx i).head? = l.head? ∧ l.eraseIdx i ≠ [] := by
  cases l with
  | nil => simp at hlen
  | cons a as =>
    cases i with
    | zero => exact absurd rfl hi
    | succ j => simp [List.eraseIdx]

/-- `enqueue` preserves the invariant. -/
theorem enqueue_preserves_inv (st : QueueState) (t : Option String)
    (h : QueueInv st) : QueueInv (enqueue st t) := by
  by_cases ht : jsTrim (t.getD "") = ""
  · simpa [enqueue, ht] using h
  · rw [enqueue_fields st t ht]
    refine ⟨fun hc => ?_, fun hc => ?_⟩
    · obtain ⟨hne, hcp⟩ := h.1 hc
      exact ⟨by simp, hcp.trans (head_append_singleton st.queue _ hne).symm⟩
    · obtain ⟨hne, hcp⟩ := h.2 hc
      exact ⟨by simp, hcp.trans (head_append_singleton st.queue _ hne).symm⟩

/-- `_dequeueAndSend` preserves the invariant: whatever the DOM does, the
cycle ends IDLE (resolution), ERRORED with the failed item still at index 0
(rejection), or never started. -/
theorem dequeueAndSend_preserves_inv (env : DomEnv) (st : QueueState)
    (h : QueueInv st) : QueueInv (dequeueAndSend env st) := by
  by_cases hidle : st.state = MState.idle
  · cases hq : st.queue with
    | nil => simpa [dequeueAndSend, startSend, hidle, hq] using h
    | cons p rest =>
      have hstart : startSend st
          = some (setState { st with currentPrompt := some p } MState.running,
              p) := by
        simp [startSend, hidle, hq]
      unfold dequeueAndSend
      rw [hstart]
      cases hw : waitForSendButton env with
      | clicked => exact queueInv_of_idle _ (onSendResolved_fields _).2.1
      | rejectedPoll m =>
        refine ⟨fun hc => ?_, fun hc => ?_⟩ <;>
          simp [QueueInv, onSendRejected, setState, hidle, hq] at hc ⊢
      | rejectedClick =>
        refine ⟨fun hc => ?_, fun hc => ?_⟩ <;>
          simp [QueueInv, onSendRejected, setState, hidle, hq] at hc ⊢
  · simpa [dequeueAndSend, startSend, hidle] using h

/-- `retryLastError` preserves the invariant from any state, because it
always funnels through `_setState(IDLE)` and then a fresh send cycle. -/
theorem retryLastError_preserves_inv (env : DomEnv) (st : QueueState) :
    QueueInv (retryLastError env st) := by
  unfold retryLastError
  cases hle : st.lastError with
  | some le =>
    exact dequeueAndSend_preserves_inv env _
      (queueInv_of_idle _ (setState_state _ _))
  | none =>
    by_cases hq :
        (setState { st with lastError := none } MState.idle).queue.length > 0
    · rw [if_pos hq]
      exact dequeueAndSend_preserves_inv env _
        (queueInv_of_idle _ (setState_state _ _))
    · rw [if_neg hq]
      exact queueInv_of_idle _ (setState_state _ _)

/-- `_removeQueueItem` preserves the invariant except when it deletes the
failed index-0 item of an ERRORED machine. -/
theorem removeQueueItem_preserves_inv (st : QueueState) (i : Nat)
    (h : QueueInv st) (hcond : ¬(i = 0 ∧ st.state = MState.errored)) :
    QueueInv (removeQueueItem st i) := by
  by_cases hrange : i ≥ st.queue.length
  · simpa [removeQueueItem, hrange] using h
  · by_cases hrun : i = 0 ∧ st.state = MState.running
    · obtain ⟨hi0, hst⟩ := hrun
      subst hi0
      have hne : st.queue ≠ [] := by
        intro hnil
        exact hrange (by simp [hnil])
      have hstate : (removeQueueItem st 0).state = MState.idle := by
        simp [removeQueueItem, hrange, hst, hne, setState_state]
      exact queueInv_of_idle _ hstate
    · have hres : removeQueueItem st i
          = { st with
              queue := st.queue.eraseIdx i,
              events := st.events
                ++ [QEvent.queueChanged (st.queue.eraseIdx i)] } := by
        simp [removeQueueItem, hrange, hrun]
      rw [hres]
      refine ⟨fun hc => ?_, fun hc => ?_⟩
      · have hi0 : i ≠ 0 := fun h0 => hrun ⟨h0, hc⟩
        obtain ⟨hh, hne⟩ :=
          eraseIdx_pos_head st.queue i hi0 (Nat.lt_of_not_le hrange)
        obtain ⟨_, hcp⟩ := h.1 hc
        exact ⟨hne, hcp.trans hh.symm⟩
      · have hi0 : i ≠ 0 := fun h0 => hcond ⟨h0, hc⟩
        obtain ⟨hh, hne⟩ :=
          eraseIdx_pos_head st.queue i hi0 (Nat.lt_of_not_le hrange)
        obtain ⟨_, hcp⟩ := h.2 hc
        exact ⟨hne, hcp.trans hh.symm⟩

/-- C1 counterexample: `clearQueue` is a public operation and does not
preserve the invariant — from an ERRORED machine (or a RUNNING one) it
empties the queue while leaving the state ERRORED (resp. RUNNING), so
`state == Errored` no longer implies `queue.length >= 1`. -/
theorem C1_clearQueue_breaks_invariant :
    QueueInv erroredSample ∧ ¬ QueueInv (clearQueue erroredSample) ∧
    QueueInv runningOnA ∧ ¬ QueueInv (clearQueue runningOnA) := by decide

/-- C1 amended: the invariant (RUNNING and ERRORED each imply a non-empty
queue whose index-0 item is the acted-upon one) is preserved by `enqueue`,
by `retryLastError`, by the whole send cycle, and by `_removeQueueItem`
except when it removes index 0 of an ERRORED machine; it is not preserved by
`clearQueue` (nor by that ERRORED removal), which reset neither state nor
error. -/
theorem C1_invariant_preservation_amended (st : QueueState)
    (h : QueueInv st) :
    (∀ t, QueueInv (enqueue st t)) ∧
    (∀ env, QueueInv (retryLastError env st)) ∧
    (∀ env, QueueInv (dequeueAndSend env st)) ∧
    (∀ i, ¬(i = 0 ∧ st.state = MState.errored) →
      QueueInv (removeQueueItem st i)) :=
  ⟨fun t => enqueue_preserves_inv st t h,
   fun env => retryLastError_preserves_inv env st,
   fun env => dequeueAndSend_preserves_inv env st h,
   fun i hc => removeQueueItem_preserves_inv st i h hc⟩

/-- C1 amended, witness on the two-item ERRORED sample. -/
theorem C1_invariant_preservation_amended_witness :
    QueueInv (enqueue erroredTwoSample (some "z")) ∧
    QueueInv (removeQueueItem erroredTwoSample 1) :=
  ⟨(C1_invariant_preservation_amended erroredTwoSample (by decide)).1
      (some "z"),
   (C1_invariant_preservation_amended erroredTwoSample (by decide)).2.2.2 1
      (by decide)⟩

/-! ## C3 — every detector path resolves; only the click can reject -/

/-- `complete()` either does nothing (already completed) or settles the
promise with a resolution; it can never reject. -/
theorem completeFn_snd (d : DetectorState) :
    (completeFn d).2 = none ∨ (completeFn d).2 = some Settled.resolved := by
  unfold completeFn
  split <;> simp

/-- C3: once `_setupCompletionDetection` has been installed, no timer,
interval tick, mutation callback or settle delay ever produces a rejection
(the `fail` helper that would is never invoked); the 45 s absolute ceiling
firing on an uncompleted detector always produces a resolution; and at the
`_sendPromptDom` level, a synchronous settlement by rejection while a
detector exists can only come from the `sendBtn.click()` throw. -/
theorem C3_detector_resolves_never_rejects (e : DetEvent) (d : DetectorState)
    (env : DomEnv) :
    (detStep e d).2 ≠ some Settled.rejected ∧
    (d.isCompleted = false →
      (detStep DetEvent.ceilingFires d).2 = some Settled.resolved) ∧
    ((sendPromptDomSync env).1.isSome →
      (sendPromptDomSync env).2 = some Settled.rejected →
      waitForSendButton env = SendResult.rejectedClick) := by
  refine ⟨?_, ?_, ?_⟩
  · cases e with
    | ceilingFires =>
      simp only [detStep]
      split <;> simp
    | simpleFires =>
      simp only [detStep]
      split
      · rcases completeFn_snd { d with simpleActive := false } with h | h <;>
          simp [h]
      · simp
    | fallbackFires =>
      simp only [detStep]
      split
      · rcases completeFn_snd { d with fallbackActive := false } with h | h <;>
          simp [h]
      · simp
    | intervalTick b1 b2 =>
      simp only [detStep]
      split
      · simp
      · split <;> simp
    | mutation g b1 b2 =>
      simp only [detStep]
      split
      · simp
      · split <;> split <;> simp
    | initialCheckFires b1 b2 =>
      simp [detStep]
    | completeDelayFires =>
      rcases completeFn_snd { d with completeDelayPending := false } with h | h <;>
        simp [detStep, h]
  · intro h
    simp [detStep, h]
  · intro h1 h2
    unfold sendPromptDomSync at h1 h2
    cases hw : waitForSendButton env <;> rw [hw] at h1 h2 <;> simp_all

/-- C3 witness: the ceiling fires on the freshly installed detector and
resolves. -/
theorem C3_detector_resolves_never_rejects_witness :
    (detStep DetEvent.ceilingFires initialDetector).2
      = some Settled.resolved :=
  (C3_detector_resolves_never_rejects DetEvent.ceilingFires initialDetector
    readyEnv).2.1 rfl

/-! ## C9 — what survives the settlement of the completion promise -/

/-- C9: on the thrown-click path the promise settles by rejection but
`cleanup()` is never invoked — `catch (e) { reject(e); }` bypasses it (the
`fail` helper that would clean up is dead code) — so after the settlement
the 45 s ceiling, the primary and fallback timers, the 500 ms check interval
and the mutation observer are all still active, firing for up to 45 more
seconds.  Even a resolution path leaves the untracked 1 s
`setTimeout(checkSendButton, 1000)` uncancelled, as `cleanup()` records no
id for it. -/
theorem C9_thrown_click_leaves_timers_active :
    sendPromptDomSync clickThrowEnv
      = (some initialDetector, some Settled.rejected) ∧
    initialDetector.ceilingActive = true ∧
    initialDetector.simpleActive = true ∧
    initialDetector.fallbackActive = true ∧
    initialDetector.intervalActive = true ∧
    initialDetector.observerActive = true ∧
    anyResourceActive initialDetector = true ∧
    ((detStep DetEvent.ceilingFires initialDetector).1).initialCheckActive
      = true := by decide
